import Mathlib

/-!
Shallow embedding of `src/xm_to_spotify.py`.

The script harvests recently played tracks from the XMPlaylists feed and
appends the not-yet-seen ones to a rotating sequence of Spotify playlists
("volumes").  External effects are modelled explicitly:

* the HTTP feed response is an `Option (List RawItem)` (`none` models a
  transport failure, caught in `fetch_xm_tracks`);
* Spotify search responses are supplied by an environment as a
  `SearchResp` (HTTP status plus the ranked result uris) per query;
* the remote playlist collection is a `DestState`; appending obeys the
  100-uris-per-call chunking of `add_tracks_to_playlist` and each append
  API call can succeed or fail as decided by the environment's
  `appendOk` oracle, indexed by the number of append calls made so far;
* `save_json` events are recorded in order in a `saves` log, and search
  queries in a `queries` log, so that persistence ordering and re-query
  behaviour can be stated;
* `load_json` is modelled over a `FileState` (absent / corrupt / parsed
  value): the Python code catches only `FileNotFoundError`, so a corrupt
  file makes `json.load` raise, modelled as `Except.error`.

Token refresh (`get_access_token`) and playlist creation are modelled as
always succeeding; no property below concerns their failure.
-/

namespace XmSpot

/-- `PLAYLIST_MAX` from the script: Spotify's hard per-playlist limit. -/
def PLAYLIST_MAX : Nat := 10000

/-- `PLAYLIST_THRESHOLD` from the script: safety margin below the limit. -/
def PLAYLIST_THRESHOLD : Nat := 9900

/-- The two capacity constants of the script, made explicit so that the
testable properties can instantiate them (the script hard-codes
9900/10000 as module constants). -/
structure Config where
  threshold : Nat
  maxTracks : Nat
deriving Repr, DecidableEq

def defaultConfig : Config := ⟨PLAYLIST_THRESHOLD, PLAYLIST_MAX⟩

/-- One entry of the feed's `tracks` array: the `song` and `artist`
fields may be missing (`item.get(...)` returning `None`). -/
structure RawItem where
  song : Option String
  artist : Option String
deriving Repr, DecidableEq

/-- Python `str.strip()`: drop whitespace from both ends.  (Stated over
the character list because the library's `String.trim` is not reducible
by the kernel.) -/
def pyStrip (s : String) : String :=
  ⟨((s.data.dropWhile Char.isWhitespace).reverse.dropWhile Char.isWhitespace).reverse⟩

/-- Python `str.lower()`: lower-case each character. -/
def pyLower (s : String) : String :=
  ⟨s.data.map Char.toLower⟩

/-- The canonical dedup key built in `fetch_xm_tracks`:
`f"\x7bartist.lower()\x7d - \x7btitle.lower()\x7d"`. -/
def canonicalKey (artist title : String) : String :=
  pyLower artist ++ " - " ++ pyLower title

/-- One iteration of the parsing loop in `fetch_xm_tracks`: strip the
fields, drop the item unless both are nonempty, and build the key. -/
def parseItem (it : RawItem) : Option (String × String × String) :=
  let title := pyStrip (it.song.getD "")
  let artist := pyStrip (it.artist.getD "")
  if title ≠ "" ∧ artist ≠ "" then some (title, artist, canonicalKey artist title)
  else none

/-- `fetch_xm_tracks`: on transport failure return `[]`; otherwise parse
the `tracks` array (newest first) and reverse it so that older tracks
come first. -/
def fetch_xm_tracks (resp : Option (List RawItem)) : List (String × String × String) :=
  match resp with
  | none => []
  | some data => (data.filterMap parseItem).reverse

/-- State of a persisted JSON file as seen by `load_json`. -/
inductive FileState (α : Type) where
  | absent : FileState α
  | corrupt : FileState α
  | stored : α → FileState α
deriving Repr, DecidableEq

/-- `load_json`: `open` raises `FileNotFoundError` on an absent file,
which is caught and turned into the default; any other failure of
`json.load` (a corrupt file) propagates as an exception. -/
def load_json {α : Type} (fs : FileState α) (default : α) : Except Unit α :=
  match fs with
  | FileState.absent => Except.ok default
  | FileState.corrupt => Except.error ()
  | FileState.stored a => Except.ok a

/-- A Spotify search HTTP response: status code and ranked track uris. -/
structure SearchResp where
  status : Nat
  items : List String
deriving Repr, DecidableEq

/-- `spotify_search_track`: issue the strict `track:.. artist:..` query;
on a non-200 status return `None`; on an empty result list retry once
with the loose free-text query; otherwise take the top uri.  The second
component records whether the fallback query was issued. -/
def spotify_search_track (primary fallback : SearchResp) : Option String × Bool :=
  if primary.status ≠ 200 then (none, false)
  else
    match primary.items with
    | u :: _ => (some u, false)
    | [] =>
      if fallback.status = 200 then
        match fallback.items with
        | u :: _ => (some u, true)
        | [] => (none, true)
      else (none, true)

/-- A remote playlist: id, display name, and its tracks in order. -/
structure Playlist where
  id : Nat
  name : String
  tracks : List String
deriving Repr, DecidableEq

/-- The remote playlist collection; `nextId` supplies fresh ids. -/
structure DestState where
  nextId : Nat
  playlists : List Playlist
deriving Repr, DecidableEq

/-- Look up the track list of the playlist with the given id. -/
def findTracks : List Playlist → Nat → Option (List String)
  | [], _ => none
  | p :: rest, i => if p.id = i then some p.tracks else findTracks rest i

/-- `get_playlist_total_tracks`: `tracks.total` of the playlist, or
`none` when the GET raises (playlist deleted / transport failure). -/
def get_playlist_total_tracks (d : DestState) (pid : Nat) : Option Nat :=
  (findTracks d.playlists pid).map List.length

/-- Append uris to the playlist with the given id (the effect of one
successful `POST .../tracks` call on the remote state). -/
def appendTracks (pid : Nat) (uris : List String) : List Playlist → List Playlist
  | [] => []
  | p :: rest =>
    if p.id = pid then { p with tracks := p.tracks ++ uris } :: rest
    else p :: appendTracks pid uris rest

/-- `create_playlist`: create `PLAYLIST_PREFIX — Vol. volume` and return
its fresh id together with the new remote state. -/
def create_playlist (d : DestState) (volume : Nat) : Nat × DestState :=
  (d.nextId,
   { nextId := d.nextId + 1,
     playlists := d.playlists ++
       [{ id := d.nextId,
          name := "SiriusXM 1st Wave Archive — Vol. " ++ toString volume,
          tracks := [] }] })

/-- Split a list into successive chunks of `n` (the `range(0, len, 100)`
loop of `add_tracks_to_playlist`); the fuel argument (instantiated with
the list length) only bounds the number of rounds and is never exhausted
for `n = 100`. -/
def chunksOfAux (n : Nat) : Nat → List α → List (List α)
  | _, [] => []
  | 0, l => [l]
  | fuel + 1, l => l.take n :: chunksOfAux n fuel (l.drop n)

def chunksOf (n : Nat) (l : List α) : List (List α) :=
  chunksOfAux n l.length l

/-- One append API call as recorded for the run: target playlist, the
chunk of uris posted, and whether Spotify accepted it. -/
structure AppendCall where
  pid : Nat
  chunk : List String
  ok : Bool
deriving Repr, DecidableEq

/-- Result of `add_tracks_to_playlist`: overall success flag, updated
remote state, updated append-call counter, and the calls issued. -/
structure AddResult where
  ok : Bool
  dest : DestState
  k : Nat
  callLog : List AppendCall
deriving Repr, DecidableEq

/-- The chunk loop of `add_tracks_to_playlist`: post each chunk in
order; a non-2xx response stops the loop and reports failure, leaving
the remaining chunks unposted. -/
def add_chunks (env : Nat → Bool) (pid : Nat) :
    DestState → Nat → List (List String) → AddResult
  | d, k, [] => ⟨true, d, k, []⟩
  | d, k, c :: rest =>
    if env k then
      let r := add_chunks env pid { d with playlists := appendTracks pid c d.playlists } (k + 1) rest
      ⟨r.ok, r.dest, r.k, ⟨pid, c, true⟩ :: r.callLog⟩
    else ⟨false, d, k + 1, [⟨pid, c, false⟩]⟩

/-- `add_tracks_to_playlist`: empty input succeeds with no calls;
otherwise the uris are posted in 100-sized chunks. -/
def add_tracks_to_playlist (env : Nat → Bool) (d : DestState) (k : Nat)
    (pid : Nat) (uris : List String) : AddResult :=
  if uris = [] then ⟨true, d, k, []⟩
  else add_chunks env pid d k (chunksOf 100 uris)

/-- The persisted `meta.json` record: `current_volume` and
`current_playlist_id`, each possibly absent (`dict.get` defaults are
applied inside `main`). -/
structure Meta where
  current_volume : Option Nat
  current_playlist_id : Option Nat
deriving Repr, DecidableEq

/-- One `save_json` call, with the value written. -/
inductive SaveEvent where
  | seenSave : List String → SaveEvent
  | metaSave : Meta → SaveEvent
deriving Repr, DecidableEq

/-- The environment a run interacts with: the feed response, the two
search responses per `(title, artist)` query, and the per-call success
oracle for append API calls. -/
structure Env where
  feed : Option (List RawItem)
  searchPrimary : String → String → SearchResp
  searchFallback : String → String → SearchResp
  appendOk : Nat → Bool

/-- The in-memory state of `main` while iterating over the feed items,
together with the logs of external effects. -/
structure St where
  seen : List String
  total : Nat
  vol : Nat
  pid : Nat
  metav : Meta
  buf : List String
  dest : DestState
  k : Nat
  newCount : Nat
  saves : List SaveEvent
  queries : List (String × String)
  appendLog : List AppendCall
deriving Repr, DecidableEq

/-- Issue one `add_tracks_to_playlist(access_token, pid, buf)` call for
the current buffer, recording its effects; the buffer itself and `total`
are left for the caller, exactly as in the script where the lines
`total += len(to_add_uris)` and `to_add_uris = []` only run on success. -/
def flushBuf (env : Env) (s : St) : Bool × St :=
  let r := add_tracks_to_playlist env.appendOk s.dest s.k s.pid s.buf
  (r.ok, { s with dest := r.dest, k := r.k, appendLog := s.appendLog ++ r.callLog })

/-- The rotation block of `main` (lines 217-222): bump the volume,
create the next playlist, update and save the meta record, reset the
running count. -/
def rotate (s : St) : St :=
  let vol := s.vol + 1
  let c := create_playlist s.dest vol
  let m : Meta := ⟨some vol, some c.1⟩
  { s with
    vol := vol, pid := c.1, dest := c.2, metav := m,
    saves := s.saves ++ [SaveEvent.metaSave m], total := 0 }

/-- Put a resolved uri into the buffer and mark its key seen
(lines 224-226). -/
def bufferItem (u key : String) (s : St) : St :=
  { s with buf := s.buf ++ [u], seen := key :: s.seen, newCount := s.newCount + 1 }

/-- The end-of-iteration checkpoint (lines 231-239): once 50 uris are
buffered, flush them; on success record the progress and save both the
seen file and the meta file; on failure break out of the loop. -/
def flushIfBig (env : Env) (s : St) : St × Bool :=
  if 50 ≤ s.buf.length then
    let r := flushBuf env s
    if r.1 then
      let s2 := { r.2 with total := r.2.total + r.2.buf.length, buf := [] }
      ({ s2 with saves := s2.saves ++ [SaveEvent.seenSave s2.seen, SaveEvent.metaSave s2.metav] }, true)
    else (r.2, false)
  else (s, true)

/-- The `if uri:` branch of the loop (lines 207-226 followed by the
checkpoint of lines 231-239): when buffering one more uri would push the
container past `PLAYLIST_MAX`, first flush the buffered uris to the
current container (aborting the run if that flush fails, with the
buffer kept), then rotate; finally buffer the uri, mark the key seen,
and run the 50-item checkpoint. -/
def handleResolved (env : Env) (cfg : Config) (u key : String) (s1 : St) : St × Bool :=
  if cfg.maxTracks < s1.total + s1.buf.length + 1 then
    if s1.buf = [] then
      flushIfBig env (bufferItem u key (rotate s1))
    else
      let r := flushBuf env s1
      if r.1 then
        let s2 := { r.2 with total := r.2.total + r.2.buf.length, buf := [] }
        flushIfBig env (bufferItem u key (rotate s2))
      else (r.2, false)
  else flushIfBig env (bufferItem u key s1)

/-- The body of the `for title, artist, key in xm_tracks` loop of
`main` (lines 202-239).  The returned flag is `false` when the loop
`break`s (a failed append). -/
def processItem (env : Env) (cfg : Config) (s : St)
    (item : String × String × String) : St × Bool :=
  let title := item.1
  let artist := item.2.1
  let key := item.2.2
  if key ∈ s.seen then (s, true)
  else
    let s1 := { s with queries := s.queries ++ [(title, artist)] }
    let sr := spotify_search_track (env.searchPrimary title artist) (env.searchFallback title artist)
    match sr.1 with
    | none => flushIfBig env { s1 with seen := key :: s1.seen }
    | some u => handleResolved env cfg u key s1

/-- The feed-item loop of `main`. -/
def runLoop (env : Env) (cfg : Config) : St → List (String × String × String) → St
  | s, [] => s
  | s, item :: rest =>
    let r := processItem env cfg s item
    if r.2 then runLoop env cfg r.1 rest else r.1

/-- The tail of `main` (lines 241-246): flush whatever is still
buffered, ignoring the result, then save both files unconditionally. -/
def finishRun (env : Env) (s : St) : St :=
  let s1 := if s.buf = [] then s else (flushBuf env s).2
  { s1 with saves := s1.saves ++ [SaveEvent.seenSave s1.seen, SaveEvent.metaSave s1.metav] }

/-- The run-start fields of `main` before the item loop. -/
structure StartState where
  total : Nat
  vol : Nat
  pid : Nat
  metav : Meta
  dest : DestState
  saves : List SaveEvent
deriving Repr, DecidableEq

/-- Lines 162-173: apply the meta defaults and, when no playlist id is
stored, create the playlist for the current volume and save meta. -/
def ensurePlaylist (meta0 : Meta) (dest0 : DestState) : StartState :=
  let vol0 := meta0.current_volume.getD 1
  match meta0.current_playlist_id with
  | some p => ⟨0, vol0, p, meta0, dest0, []⟩
  | none =>
    let c := create_playlist dest0 vol0
    let m : Meta := ⟨some vol0, some c.1⟩
    ⟨0, vol0, c.1, m, c.2, [SaveEvent.metaSave m]⟩

/-- Lines 175-185: fetch the playlist's track total; when the lookup
raises (playlist deleted), bump the volume, create a fresh playlist,
save meta, and continue with `total = 0`. -/
def checkExists (st : StartState) : StartState :=
  match get_playlist_total_tracks st.dest st.pid with
  | some t => { st with total := t }
  | none =>
    let vol := st.vol + 1
    let c := create_playlist st.dest vol
    let m : Meta := ⟨some vol, some c.1⟩
    { total := 0, vol := vol, pid := c.1, metav := m, dest := c.2,
      saves := st.saves ++ [SaveEvent.metaSave m] }

/-- Lines 187-194: when the stored playlist already holds at least
`PLAYLIST_THRESHOLD` tracks, rotate to a fresh volume before the loop. -/
def checkThreshold (cfg : Config) (st : StartState) : StartState :=
  if cfg.threshold ≤ st.total then
    let vol := st.vol + 1
    let c := create_playlist st.dest vol
    let m : Meta := ⟨some vol, some c.1⟩
    { total := 0, vol := vol, pid := c.1, metav := m, dest := c.2,
      saves := st.saves ++ [SaveEvent.metaSave m] }
  else st

/-- The full pre-loop state of a run. -/
def initState (cfg : Config) (seen0 : List String) (meta0 : Meta)
    (dest0 : DestState) : St :=
  let st := checkThreshold cfg (checkExists (ensurePlaylist meta0 dest0))
  { seen := seen0, total := st.total, vol := st.vol, pid := st.pid,
    metav := st.metav, buf := [], dest := st.dest, k := 0, newCount := 0,
    saves := st.saves, queries := [], appendLog := [] }

/-- One full run of `main` after the two state files were loaded
successfully. -/
def run (env : Env) (cfg : Config) (seen0 : List String) (meta0 : Meta)
    (dest0 : DestState) : St :=
  finishRun env (runLoop env cfg (initState cfg seen0 meta0 dest0) (fetch_xm_tracks env.feed))

/-- `main` including the two `load_json` calls (lines 159-160): an
exception from either load propagates and the run never starts. -/
def main (env : Env) (cfg : Config) (metaFile : FileState Meta)
    (seenFile : FileState (List String)) (dest0 : DestState) : Except Unit St := do
  let meta0 ← load_json metaFile ⟨none, none⟩
  let seen0 ← load_json seenFile []
  Except.ok (run env cfg seen0 meta0 dest0)

/-! ### Concrete environments used by witnesses and counterexamples -/

/-- Three resolvable feed items (newest first), all searches hit, all
append calls succeed. -/
def envRot : Env :=
  ⟨some [⟨some "t3x", some "a3"⟩, ⟨some "t2x", some "a2"⟩, ⟨some "t1x", some "a1"⟩],
   fun t _ => ⟨200, [t ++ "u"]⟩, fun _ _ => ⟨200, []⟩, fun _ => true⟩

/-- One resolvable feed item, but every append API call fails. -/
def envFail : Env :=
  ⟨some [⟨some "a", some "b"⟩],
   fun t a => ⟨200, [t ++ a]⟩, fun _ _ => ⟨200, []⟩, fun _ => false⟩

/-- Feed with items A(oldest), B, C(newest) delivered newest-first. -/
def envOrd : Env :=
  ⟨some [⟨some "tc", some "ac"⟩, ⟨some "tb", some "ab"⟩, ⟨some "ta", some "aa"⟩],
   fun t _ => ⟨200, [t ++ "-uri"]⟩, fun _ _ => ⟨200, []⟩, fun _ => true⟩

/-- Empty feed, every search misses, appends succeed. -/
def envNone : Env :=
  ⟨none, fun _ _ => ⟨200, []⟩, fun _ _ => ⟨200, []⟩, fun _ => true⟩

/-- A single resolvable feed item, all calls succeed. -/
def envOne : Env :=
  ⟨some [⟨some "t1x", some "a1"⟩],
   fun t _ => ⟨200, [t ++ "u"]⟩, fun _ _ => ⟨200, []⟩, fun _ => true⟩

/-- A loop state over one existing empty playlist, nothing seen yet. -/
def stW : St :=
  ⟨[], 0, 1, 0, ⟨some 1, some 0⟩, [], ⟨1, [⟨0, "v1", []⟩]⟩, 0, 0, [], [], []⟩

/-- A loop state mid-run: the remote container holds 2 tracks, one uri
is already buffered, nothing flushed yet. -/
def stR : St :=
  ⟨[], 2, 1, 0, ⟨some 1, some 0⟩, ["u0"], ⟨1, [⟨0, "v1", ["p", "q"]⟩]⟩, 0, 0, [], [], []⟩

/-! ### Component lemmas -/

@[simp] theorem chunksOfAux_nil (n fuel : Nat) :
    chunksOfAux (α := α) n fuel [] = [] := by
  cases fuel <;> rfl

/-- A nonempty list of at most 100 elements forms a single chunk. -/
theorem chunksOf_single (l : List String) (hne : l ≠ []) (hlen : l.length ≤ 100) :
    chunksOf 100 l = [l] := by
  cases l with
  | nil => exact absurd rfl hne
  | cons a t =>
    show chunksOfAux 100 (a :: t).length (a :: t) = [a :: t]
    simp only [List.length_cons, chunksOfAux]
    rw [List.take_of_length_le hlen, List.drop_eq_nil_of_le hlen]
    simp

/-- When every append API call succeeds, the chunk loop succeeds. -/
theorem add_chunks_ok_of_env (f : Nat → Bool) (hf : ∀ n, f n = true) (pid : Nat) :
    ∀ (cs : List (List String)) (d : DestState) (k : Nat),
      (add_chunks f pid d k cs).ok = true := by
  intro cs
  induction cs with
  | nil => intro d k; rfl
  | cons c rest ih =>
    intro d k
    unfold add_chunks
    simp only [hf k, if_true]
    exact ih _ _

theorem add_tracks_ok_of_env (f : Nat → Bool) (hf : ∀ n, f n = true)
    (d : DestState) (k pid : Nat) (uris : List String) :
    (add_tracks_to_playlist f d k pid uris).ok = true := by
  unfold add_tracks_to_playlist
  by_cases h : uris = []
  · simp [h]
  · simp only [h, if_false]
    exact add_chunks_ok_of_env f hf pid _ _ _

/-- A nonempty single-chunk buffer whose append call succeeds is applied
in one API call. -/
theorem add_tracks_single (f : Nat → Bool) (d : DestState) (k pid : Nat)
    (uris : List String) (hne : uris ≠ []) (hlen : uris.length ≤ 100)
    (hok : f k = true) :
    add_tracks_to_playlist f d k pid uris =
      ⟨true, { d with playlists := appendTracks pid uris d.playlists }, k + 1,
        [⟨pid, uris, true⟩]⟩ := by
  unfold add_tracks_to_playlist
  rw [if_neg hne, chunksOf_single uris hne hlen]
  unfold add_chunks
  simp only [hok, if_true]
  rfl

@[simp] theorem flushBuf_seen (env : Env) (s : St) : ((flushBuf env s).2).seen = s.seen := rfl

@[simp] theorem flushBuf_vol (env : Env) (s : St) : ((flushBuf env s).2).vol = s.vol := rfl

@[simp] theorem flushBuf_pid (env : Env) (s : St) : ((flushBuf env s).2).pid = s.pid := rfl

@[simp] theorem flushBuf_metav (env : Env) (s : St) : ((flushBuf env s).2).metav = s.metav := rfl

@[simp] theorem flushBuf_buf (env : Env) (s : St) : ((flushBuf env s).2).buf = s.buf := rfl

@[simp] theorem flushBuf_total (env : Env) (s : St) : ((flushBuf env s).2).total = s.total := rfl

@[simp] theorem flushBuf_saves (env : Env) (s : St) : ((flushBuf env s).2).saves = s.saves := rfl

@[simp] theorem flushBuf_queries (env : Env) (s : St) :
    ((flushBuf env s).2).queries = s.queries := rfl

theorem flushBuf_ok_of_env (env : Env) (s : St) (hf : ∀ n, env.appendOk n = true) :
    (flushBuf env s).1 = true :=
  add_tracks_ok_of_env env.appendOk hf s.dest s.k s.pid s.buf

/-- A sub-50 buffer makes the end-of-iteration checkpoint a no-op. -/
theorem flushIfBig_small (env : Env) (s : St) (h : s.buf.length < 50) :
    flushIfBig env s = (s, true) := by
  unfold flushIfBig
  rw [if_neg (by omega)]

theorem flushIfBig_seen (env : Env) (s : St) : ((flushIfBig env s).1).seen = s.seen := by
  unfold flushIfBig
  by_cases h1 : 50 ≤ s.buf.length
  · simp only [h1, if_true]
    by_cases h2 : (flushBuf env s).1 = true
    · simp only [h2, if_true]
      rfl
    · simp only [Bool.not_eq_true] at h2
      simp only [h2, Bool.false_eq_true, if_false]
      rfl
  · simp only [h1, if_false]

theorem flushIfBig_vol (env : Env) (s : St) : ((flushIfBig env s).1).vol = s.vol := by
  unfold flushIfBig
  by_cases h1 : 50 ≤ s.buf.length
  · simp only [h1, if_true]
    by_cases h2 : (flushBuf env s).1 = true
    · simp only [h2, if_true]
      rfl
    · simp only [Bool.not_eq_true] at h2
      simp only [h2, Bool.false_eq_true, if_false]
      rfl
  · simp only [h1, if_false]

theorem flushIfBig_queries (env : Env) (s : St) :
    ((flushIfBig env s).1).queries = s.queries := by
  unfold flushIfBig
  by_cases h1 : 50 ≤ s.buf.length
  · simp only [h1, if_true]
    by_cases h2 : (flushBuf env s).1 = true
    · simp only [h2, if_true]
      rfl
    · simp only [Bool.not_eq_true] at h2
      simp only [h2, Bool.false_eq_true, if_false]
      rfl
  · simp only [h1, if_false]

theorem flushIfBig_cont_of_env (env : Env) (s : St) (hf : ∀ n, env.appendOk n = true) :
    (flushIfBig env s).2 = true := by
  unfold flushIfBig
  by_cases h1 : 50 ≤ s.buf.length
  · simp only [h1, if_true, flushBuf_ok_of_env env s hf, if_true]
  · simp only [h1, if_false]

@[simp] theorem rotate_vol (s : St) : (rotate s).vol = s.vol + 1 := rfl

@[simp] theorem rotate_seen (s : St) : (rotate s).seen = s.seen := rfl

@[simp] theorem bufferItem_seen (u key : String) (s : St) :
    (bufferItem u key s).seen = key :: s.seen := rfl

@[simp] theorem bufferItem_vol (u key : String) (s : St) :
    (bufferItem u key s).vol = s.vol := rfl

/-! ### Loop-body lemmas -/

theorem handleResolved_mono (env : Env) (cfg : Config) (u key : String) (s1 : St) :
    s1.seen ⊆ ((handleResolved env cfg u key s1).1).seen ∧
      s1.vol ≤ ((handleResolved env cfg u key s1).1).vol := by
  unfold handleResolved
  by_cases hc : cfg.maxTracks < s1.total + s1.buf.length + 1
  · simp only [hc, if_true]
    by_cases hb : s1.buf = []
    · simp only [hb, if_true]
      constructor
      · rw [flushIfBig_seen]
        exact fun x hx => List.mem_cons_of_mem _ hx
      · rw [flushIfBig_vol]
        exact Nat.le_succ _
    · simp only [hb, if_false]
      by_cases hr : (flushBuf env s1).1 = true
      · simp only [hr, if_true]
        constructor
        · rw [flushIfBig_seen]
          exact fun x hx => List.mem_cons_of_mem _ hx
        · rw [flushIfBig_vol]
          exact Nat.le_succ _
      · simp only [Bool.not_eq_true] at hr
        simp only [hr, Bool.false_eq_true, if_false]
        exact ⟨List.Subset.refl _, Nat.le_refl _⟩
  · simp only [hc, if_false]
    constructor
    · rw [flushIfBig_seen]
      exact fun x hx => List.mem_cons_of_mem _ hx
    · rw [flushIfBig_vol]
      exact Nat.le_refl _

theorem handleResolved_ok (env : Env) (cfg : Config) (u key : String) (s1 : St)
    (hf : ∀ n, env.appendOk n = true) :
    (handleResolved env cfg u key s1).2 = true ∧
      key ∈ ((handleResolved env cfg u key s1).1).seen := by
  unfold handleResolved
  by_cases hc : cfg.maxTracks < s1.total + s1.buf.length + 1
  · simp only [hc, if_true]
    by_cases hb : s1.buf = []
    · simp only [hb, if_true]
      refine ⟨flushIfBig_cont_of_env _ _ hf, ?_⟩
      rw [flushIfBig_seen]
      exact List.mem_cons_self _ _
    · simp only [hb, if_false]
      simp only [flushBuf_ok_of_env env s1 hf, if_true]
      refine ⟨flushIfBig_cont_of_env _ _ hf, ?_⟩
      rw [flushIfBig_seen]
      exact List.mem_cons_self _ _
  · simp only [hc, if_false]
    refine ⟨flushIfBig_cont_of_env _ _ hf, ?_⟩
    rw [flushIfBig_seen]
    exact List.mem_cons_self _ _

theorem processItem_skip (env : Env) (cfg : Config) (s : St)
    (item : String × String × String) (h : item.2.2 ∈ s.seen) :
    processItem env cfg s item = (s, true) := by
  unfold processItem
  simp [h]

theorem processItem_mono (env : Env) (cfg : Config) (s : St)
    (item : String × String × String) :
    s.seen ⊆ ((processItem env cfg s item).1).seen ∧
      s.vol ≤ ((processItem env cfg s item).1).vol := by
  by_cases hk : item.2.2 ∈ s.seen
  · rw [processItem_skip env cfg s item hk]
    exact ⟨List.Subset.refl _, Nat.le_refl _⟩
  · unfold processItem
    simp only [hk, if_false]
    cases hu : (spotify_search_track (env.searchPrimary item.1 item.2.1)
        (env.searchFallback item.1 item.2.1)).1 with
    | none =>
      dsimp only
      constructor
      · rw [flushIfBig_seen]
        exact fun x hx => List.mem_cons_of_mem _ hx
      · rw [flushIfBig_vol]
    | some u =>
      dsimp only
      exact handleResolved_mono env cfg u item.2.2
        { s with queries := s.queries ++ [(item.1, item.2.1)] }

theorem processItem_ok (env : Env) (cfg : Config) (s : St)
    (item : String × String × String) (hf : ∀ n, env.appendOk n = true) :
    (processItem env cfg s item).2 = true ∧
      item.2.2 ∈ ((processItem env cfg s item).1).seen := by
  by_cases hk : item.2.2 ∈ s.seen
  · rw [processItem_skip env cfg s item hk]
    exact ⟨rfl, hk⟩
  · unfold processItem
    simp only [hk, if_false]
    cases hu : (spotify_search_track (env.searchPrimary item.1 item.2.1)
        (env.searchFallback item.1 item.2.1)).1 with
    | none =>
      dsimp only
      refine ⟨flushIfBig_cont_of_env _ _ hf, ?_⟩
      rw [flushIfBig_seen]
      exact List.mem_cons_self _ _
    | some u =>
      dsimp only
      exact handleResolved_ok env cfg u item.2.2 _ hf

/-! ### Loop lemmas -/

theorem runLoop_mono (env : Env) (cfg : Config) (items : List (String × String × String)) :
    ∀ s : St, s.seen ⊆ (runLoop env cfg s items).seen ∧
      s.vol ≤ (runLoop env cfg s items).vol := by
  induction items with
  | nil => intro s; exact ⟨List.Subset.refl _, Nat.le_refl _⟩
  | cons it rest ih =>
    intro s
    simp only [runLoop]
    by_cases hc : (processItem env cfg s it).2 = true
    · rw [if_pos hc]
      have h1 := processItem_mono env cfg s it
      have h2 := ih (processItem env cfg s it).1
      exact ⟨List.Subset.trans h1.1 h2.1, Nat.le_trans h1.2 h2.2⟩
    · rw [if_neg hc]
      exact processItem_mono env cfg s it

theorem runLoop_skip (env : Env) (cfg : Config) (items : List (String × String × String)) :
    ∀ s : St, (∀ it ∈ items, it.2.2 ∈ s.seen) → runLoop env cfg s items = s := by
  induction items with
  | nil => intro s _; rfl
  | cons it rest ih =>
    intro s h
    simp only [runLoop]
    rw [processItem_skip env cfg s it (h it (List.mem_cons_self _ _))]
    exact ih s (fun x hx => h x (List.mem_cons_of_mem _ hx))

theorem runLoop_all (env : Env) (cfg : Config) (items : List (String × String × String))
    (hf : ∀ n, env.appendOk n = true) :
    ∀ s : St, ∀ it ∈ items, it.2.2 ∈ (runLoop env cfg s items).seen := by
  induction items with
  | nil =>
    intro s it hit
    exact absurd hit (List.not_mem_nil _)
  | cons x rest ih =>
    intro s it hit
    have hx := processItem_ok env cfg s x hf
    simp only [runLoop]
    rw [if_pos hx.1]
    rcases List.mem_cons.mp hit with h | h
    · subst h
      exact (runLoop_mono env cfg rest _).1 hx.2
    · exact ih _ it h

/-! ### Run-start and run-end lemmas -/

theorem finishRun_seen (env : Env) (s : St) : (finishRun env s).seen = s.seen := by
  simp only [finishRun]
  by_cases hb : s.buf = []
  · rw [if_pos hb]
  · rw [if_neg hb]
    rfl

theorem finishRun_vol (env : Env) (s : St) : (finishRun env s).vol = s.vol := by
  simp only [finishRun]
  by_cases hb : s.buf = []
  · rw [if_pos hb]
  · rw [if_neg hb]
    rfl

theorem finishRun_pid (env : Env) (s : St) : (finishRun env s).pid = s.pid := by
  simp only [finishRun]
  by_cases hb : s.buf = []
  · rw [if_pos hb]
  · rw [if_neg hb]
    rfl

theorem finishRun_metav (env : Env) (s : St) : (finishRun env s).metav = s.metav := by
  simp only [finishRun]
  by_cases hb : s.buf = []
  · rw [if_pos hb]
  · rw [if_neg hb]
    rfl

theorem finishRun_saves_eq (env : Env) (s : St) :
    (finishRun env s).saves =
      s.saves ++ [SaveEvent.seenSave s.seen, SaveEvent.metaSave s.metav] := by
  simp only [finishRun]
  by_cases hb : s.buf = []
  · rw [if_pos hb]
  · rw [if_neg hb]
    rfl

theorem finishRun_of_empty (env : Env) (s : St) (hb : s.buf = []) :
    (finishRun env s).appendLog = s.appendLog ∧ (finishRun env s).k = s.k ∧
      (finishRun env s).newCount = s.newCount ∧ (finishRun env s).dest = s.dest := by
  simp only [finishRun]
  rw [if_pos hb]
  exact ⟨rfl, rfl, rfl, rfl⟩

theorem initState_seen (cfg : Config) (seen0 : List String) (meta0 : Meta)
    (dest0 : DestState) : (initState cfg seen0 meta0 dest0).seen = seen0 := rfl

theorem initState_buf (cfg : Config) (seen0 : List String) (meta0 : Meta)
    (dest0 : DestState) : (initState cfg seen0 meta0 dest0).buf = [] := rfl

theorem initState_logs (cfg : Config) (seen0 : List String) (meta0 : Meta)
    (dest0 : DestState) :
    (initState cfg seen0 meta0 dest0).k = 0 ∧
      (initState cfg seen0 meta0 dest0).appendLog = [] ∧
      (initState cfg seen0 meta0 dest0).newCount = 0 ∧
      (initState cfg seen0 meta0 dest0).queries = [] := ⟨rfl, rfl, rfl, rfl⟩

theorem ensurePlaylist_vol (meta0 : Meta) (dest0 : DestState) :
    (ensurePlaylist meta0 dest0).vol = meta0.current_volume.getD 1 := by
  unfold ensurePlaylist
  cases meta0.current_playlist_id <;> rfl

theorem checkExists_vol_ge (st : StartState) : st.vol ≤ (checkExists st).vol := by
  unfold checkExists
  cases get_playlist_total_tracks st.dest st.pid
  · exact Nat.le_succ _
  · exact Nat.le_refl _

theorem checkThreshold_vol_ge (cfg : Config) (st : StartState) :
    st.vol ≤ (checkThreshold cfg st).vol := by
  unfold checkThreshold
  by_cases h : cfg.threshold ≤ st.total
  · rw [if_pos h]
    exact Nat.le_succ _
  · rw [if_neg h]

theorem initState_vol_ge (cfg : Config) (seen0 : List String) (meta0 : Meta)
    (dest0 : DestState) :
    meta0.current_volume.getD 1 ≤ (initState cfg seen0 meta0 dest0).vol := by
  have h0 : (initState cfg seen0 meta0 dest0).vol =
      (checkThreshold cfg (checkExists (ensurePlaylist meta0 dest0))).vol := rfl
  rw [h0, ← ensurePlaylist_vol meta0 dest0]
  exact Nat.le_trans (checkExists_vol_ge _) (checkThreshold_vol_ge _ _)

/-- A nonempty single-chunk buffer whose append API call succeeds is
flushed in one call with the expected effects. -/
theorem flushBuf_single (env : Env) (s : St) (hne : s.buf ≠ [])
    (hlen : s.buf.length ≤ 100) (hok : env.appendOk s.k = true) :
    flushBuf env s =
      (true, { s with
        dest := { s.dest with playlists := appendTracks s.pid s.buf s.dest.playlists },
        k := s.k + 1,
        appendLog := s.appendLog ++ [⟨s.pid, s.buf, true⟩] }) := by
  unfold flushBuf
  rw [add_tracks_single env.appendOk s.dest s.k s.pid s.buf hne hlen hok]

/-- The full effect of the resolved-item branch when buffering one more
uri would exceed the hard limit and the flush succeeds: the buffer is
appended to the current container, the controller rotates, and the
triggering uri starts the new container's buffer. -/
theorem handleResolved_rotates (env : Env) (cfg : Config) (u key : String) (s1 : St)
    (hover : cfg.maxTracks < s1.total + s1.buf.length + 1)
    (hne : s1.buf ≠ []) (hlen : s1.buf.length ≤ 100)
    (hok : env.appendOk s1.k = true) :
    handleResolved env cfg u key s1 =
      ({ s1 with
          seen := key :: s1.seen,
          total := 0,
          vol := s1.vol + 1,
          pid := s1.dest.nextId,
          metav := ⟨some (s1.vol + 1), some s1.dest.nextId⟩,
          buf := [u],
          dest := ⟨s1.dest.nextId + 1,
            appendTracks s1.pid s1.buf s1.dest.playlists ++
              [⟨s1.dest.nextId,
                "SiriusXM 1st Wave Archive — Vol. " ++ toString (s1.vol + 1), []⟩]⟩,
          k := s1.k + 1,
          newCount := s1.newCount + 1,
          saves := s1.saves ++
            [SaveEvent.metaSave ⟨some (s1.vol + 1), some s1.dest.nextId⟩],
          appendLog := s1.appendLog ++ [⟨s1.pid, s1.buf, true⟩] }, true) := by
  unfold handleResolved
  rw [if_pos hover, if_neg hne, flushBuf_single env s1 hne hlen hok]
  rfl

/-- A run over a feed all of whose items are already seen changes no
remote tracks: no append call is made and the seen set is unchanged. -/
theorem run_of_all_seen (env : Env) (cfg : Config) (seen0 : List String) (meta0 : Meta)
    (dest0 : DestState) (hall : ∀ it ∈ fetch_xm_tracks env.feed, it.2.2 ∈ seen0) :
    (run env cfg seen0 meta0 dest0).appendLog = [] ∧
      (run env cfg seen0 meta0 dest0).k = 0 ∧
      (run env cfg seen0 meta0 dest0).newCount = 0 ∧
      (run env cfg seen0 meta0 dest0).seen = seen0 := by
  have hskip : runLoop env cfg (initState cfg seen0 meta0 dest0) (fetch_xm_tracks env.feed) =
      initState cfg seen0 meta0 dest0 :=
    runLoop_skip env cfg (fetch_xm_tracks env.feed) _ hall
  unfold run
  rw [hskip]
  have hfin := finishRun_of_empty env (initState cfg seen0 meta0 dest0)
    (initState_buf cfg seen0 meta0 dest0)
  refine ⟨?_, ?_, ?_, ?_⟩
  · rw [hfin.1]
    exact (initState_logs cfg seen0 meta0 dest0).2.1
  · rw [hfin.2.1]
    exact (initState_logs cfg seen0 meta0 dest0).1
  · rw [hfin.2.2.1]
    exact (initState_logs cfg seen0 meta0 dest0).2.2.1
  · rw [finishRun_seen]
    exact initState_seen cfg seen0 meta0 dest0

/-! ### Claim theorems: persistence and search -/

/-- C10: if the primary destination search request fails with a non-200
status, `spotify_search_track` returns `none` immediately and the
fallback free-text query is never issued; no exception is raised (the
function is total and its `none` is the same value a genuine no-match
produces). -/
theorem search_non200_no_fallback (primary fallback : SearchResp)
    (h : primary.status ≠ 200) :
    spotify_search_track primary fallback = (none, false) := by
  unfold spotify_search_track
  simp [h]

theorem search_non200_no_fallback_witness :
    (⟨500, ["x"]⟩ : SearchResp).status ≠ 200 ∧
      spotify_search_track ⟨500, ["x"]⟩ ⟨200, ["y"]⟩ = (none, false) :=
  ⟨by decide, search_non200_no_fallback ⟨500, ["x"]⟩ ⟨200, ["y"]⟩ (by decide)⟩

/-- C2 counterexample: on a corrupt stored file `load_json` does not
return the default — it raises (the script catches only
`FileNotFoundError`), and a run whose seen file is corrupt crashes
before doing anything. -/
theorem load_json_corrupt_crashes :
    load_json FileState.corrupt ([] : List String) = Except.error () ∧
      load_json FileState.corrupt ([] : List String) ≠ Except.ok [] ∧
      main envFail defaultConfig (FileState.stored ⟨some 1, some 0⟩)
        FileState.corrupt ⟨1, [⟨0, "v1", []⟩]⟩ = Except.error () :=
  ⟨rfl, fun h => Except.noConfusion h, rfl⟩

/-- C2 amended: `load_json` returns the default only when the stored
file is absent; a stored value is returned as is, and a corrupt file
makes the load raise, crashing the run. -/
theorem load_json_default_only_when_absent {α : Type} (d : α) :
    load_json FileState.absent d = Except.ok d ∧
      load_json FileState.corrupt d = Except.error () ∧
      ∀ a : α, load_json (FileState.stored a) d = Except.ok a :=
  ⟨rfl, rfl, fun _ => rfl⟩

/-- C1 counterexample: with one resolvable feed item and a failing
append API, the run still ends by persisting the item's canonical key
(`"b - a"`) in the seen file although the track was never appended to
any destination container — the persisted SeenSet is ahead of what was
appended, not a prefix of it. -/
theorem append_failure_still_persists_seen :
    SaveEvent.seenSave ["b - a"] ∈
        (run envFail defaultConfig [] ⟨some 1, some 0⟩ ⟨1, [⟨0, "v1", []⟩]⟩).saves ∧
      findTracks (run envFail defaultConfig [] ⟨some 1, some 0⟩
          ⟨1, [⟨0, "v1", []⟩]⟩).dest.playlists 0 = some [] ∧
      (run envFail defaultConfig [] ⟨some 1, some 0⟩
          ⟨1, [⟨0, "v1", []⟩]⟩).appendLog = [⟨0, ["ab"], false⟩] := by
  decide

/-- C1 amended: mid-run checkpoints keep the on-disk SeenSet a prefix of
the successfully appended items — the 50-item flush persists the seen
file only when its sub-batch append succeeded, and checkpoints already
written are never retracted — but the end-of-run save is unconditional:
`finishRun` persists the in-memory SeenSet (including keys of a failed
final flush) whether or not the flush succeeded. -/
theorem checkpoint_discipline (env : Env) (s : St) :
    (((flushIfBig env s).1).saves = s.saves ∨
        ((flushBuf env s).1 = true ∧
          ((flushIfBig env s).1).saves =
            s.saves ++ [SaveEvent.seenSave s.seen, SaveEvent.metaSave s.metav])) ∧
      (finishRun env s).saves =
        s.saves ++ [SaveEvent.seenSave s.seen, SaveEvent.metaSave s.metav] := by
  constructor
  · unfold flushIfBig
    by_cases h1 : 50 ≤ s.buf.length
    · simp only [h1, if_true]
      by_cases h2 : (flushBuf env s).1 = true
      · exact Or.inr ⟨h2, by simp only [h2, if_true]; rfl⟩
      · simp only [Bool.not_eq_true] at h2
        simp only [h2, Bool.false_eq_true, if_false]
        exact Or.inl rfl
    · simp only [h1, if_false]
      left
      trivial
  · unfold finishRun
    by_cases hb : s.buf = []
    · simp only [hb, if_true]
    · simp only [hb, if_false]
      rfl

/-- C4 counterexample: with `CAPACITY_THRESHOLD = 3` (and the hard limit
at its source value 10000), an active container holding 2 items and 3
new resolvable items, the run appends all 3 items to the original
container, creates no new container and leaves the volume number
unchanged — not the 1 + new-container-of-2 split the claim states. -/
theorem rotation_scenario_fails_at_threshold :
    (run envRot ⟨3, 10000⟩ [] ⟨some 1, some 0⟩ ⟨1, [⟨0, "v1", ["p", "q"]⟩]⟩).vol = 1 ∧
      (run envRot ⟨3, 10000⟩ [] ⟨some 1, some 0⟩ ⟨1, [⟨0, "v1", ["p", "q"]⟩]⟩).dest.nextId = 1 ∧
      findTracks (run envRot ⟨3, 10000⟩ [] ⟨some 1, some 0⟩
          ⟨1, [⟨0, "v1", ["p", "q"]⟩]⟩).dest.playlists 0 =
        some ["p", "q", "t1xu", "t2xu", "t3xu"] := by
  decide

/-- C4 amended: the mid-batch rotation is driven by the hard limit
`PLAYLIST_MAX`, not by `CAPACITY_THRESHOLD`; with the hard limit set to
3, an active container holding 2 items and 3 new resolvable items, the
run appends exactly 1 item to the original container, creates exactly
one new container that ends up holding the remaining 2 items, and
increments the volume number by exactly 1. -/
theorem rotation_scenario_at_hard_limit :
    (run envRot ⟨3, 3⟩ [] ⟨some 1, some 0⟩ ⟨1, [⟨0, "v1", ["p", "q"]⟩]⟩).vol = 2 ∧
      (run envRot ⟨3, 3⟩ [] ⟨some 1, some 0⟩ ⟨1, [⟨0, "v1", ["p", "q"]⟩]⟩).dest.nextId = 2 ∧
      findTracks (run envRot ⟨3, 3⟩ [] ⟨some 1, some 0⟩
          ⟨1, [⟨0, "v1", ["p", "q"]⟩]⟩).dest.playlists 0 = some ["p", "q", "t1xu"] ∧
      findTracks (run envRot ⟨3, 3⟩ [] ⟨some 1, some 0⟩
          ⟨1, [⟨0, "v1", ["p", "q"]⟩]⟩).dest.playlists 1 = some ["t2xu", "t3xu"] ∧
      SaveEvent.metaSave ⟨some 2, some 1⟩ ∈
        (run envRot ⟨3, 3⟩ [] ⟨some 1, some 0⟩ ⟨1, [⟨0, "v1", ["p", "q"]⟩]⟩).saves := by
  decide

/-- C5: the reader reverses the newest-first upstream order, so for a
feed whose upstream response lists C(newest), B, A(oldest), the parsed
items come out oldest first and the destination container receives the
appends in order A, B, C. -/
theorem feed_reversal_append_order :
    fetch_xm_tracks envOrd.feed =
        [("ta", "aa", "aa - ta"), ("tb", "ab", "ab - tb"), ("tc", "ac", "ac - tc")] ∧
      findTracks (run envOrd defaultConfig [] ⟨some 1, some 0⟩
          ⟨1, [⟨0, "v1", []⟩]⟩).dest.playlists 0 =
        some ["ta-uri", "tb-uri", "tc-uri"] := by
  decide

/-- C3 amended: the mid-batch capacity re-evaluation triggers on the
hard limit `PLAYLIST_MAX`, not on `CAPACITY_THRESHOLD`: whenever the
next resolved uri would push `total + buffered + 1` past the hard
limit and the flush of the buffered uris succeeds, the controller first
appends every buffered uri to the current container and only then
rotates — the volume is bumped by one, a fresh container is created,
and the triggering uri alone starts the new container's buffer, so no
sub-batch spans two containers and the resolved item is kept. -/
theorem flush_then_rotate_at_hard_limit (env : Env) (cfg : Config) (s : St)
    (t a k u : String)
    (hk : k ∉ s.seen)
    (hres : (spotify_search_track (env.searchPrimary t a) (env.searchFallback t a)).1 = some u)
    (hover : cfg.maxTracks < s.total + s.buf.length + 1)
    (hne : s.buf ≠ []) (hlen : s.buf.length ≤ 100)
    (hok : env.appendOk s.k = true) :
    (processItem env cfg s (t, a, k)).2 = true ∧
      ((processItem env cfg s (t, a, k)).1).vol = s.vol + 1 ∧
      ((processItem env cfg s (t, a, k)).1).pid = s.dest.nextId ∧
      ((processItem env cfg s (t, a, k)).1).buf = [u] ∧
      ((processItem env cfg s (t, a, k)).1).total = 0 ∧
      ((processItem env cfg s (t, a, k)).1).seen = k :: s.seen ∧
      ((processItem env cfg s (t, a, k)).1).dest.playlists =
        appendTracks s.pid s.buf s.dest.playlists ++
          [⟨s.dest.nextId,
            "SiriusXM 1st Wave Archive — Vol. " ++ toString (s.vol + 1), []⟩] ∧
      ((processItem env cfg s (t, a, k)).1).appendLog =
        s.appendLog ++ [⟨s.pid, s.buf, true⟩] := by
  have hstep : processItem env cfg s (t, a, k) =
      handleResolved env cfg u k { s with queries := s.queries ++ [(t, a)] } := by
    unfold processItem
    dsimp only
    rw [if_neg hk, hres]
  rw [hstep, handleResolved_rotates env cfg u k
    { s with queries := s.queries ++ [(t, a)] } hover hne hlen hok]
  exact ⟨rfl, rfl, rfl, rfl, rfl, rfl, rfl, rfl⟩

theorem flush_then_rotate_at_hard_limit_witness :
    (processItem envOne ⟨3, 3⟩ stR ("t1x", "a1", "a1 - t1x")).2 = true ∧
      ((processItem envOne ⟨3, 3⟩ stR ("t1x", "a1", "a1 - t1x")).1).vol = 2 ∧
      ((processItem envOne ⟨3, 3⟩ stR ("t1x", "a1", "a1 - t1x")).1).pid = 1 ∧
      ((processItem envOne ⟨3, 3⟩ stR ("t1x", "a1", "a1 - t1x")).1).buf = ["t1xu"] ∧
      ((processItem envOne ⟨3, 3⟩ stR ("t1x", "a1", "a1 - t1x")).1).total = 0 ∧
      ((processItem envOne ⟨3, 3⟩ stR ("t1x", "a1", "a1 - t1x")).1).seen = ["a1 - t1x"] ∧
      ((processItem envOne ⟨3, 3⟩ stR ("t1x", "a1", "a1 - t1x")).1).dest.playlists =
        appendTracks 0 ["u0"] [⟨0, "v1", ["p", "q"]⟩] ++
          [⟨1, "SiriusXM 1st Wave Archive — Vol. " ++ toString 2, []⟩] ∧
      ((processItem envOne ⟨3, 3⟩ stR ("t1x", "a1", "a1 - t1x")).1).appendLog =
        [⟨0, ["u0"], true⟩] :=
  flush_then_rotate_at_hard_limit envOne ⟨3, 3⟩ stR "t1x" "a1" "a1 - t1x" "t1xu"
    (by decide) (by decide) (by decide) (by decide) (by decide) (by decide)

/-- C6: an item whose resolution yields no match still has its canonical
key added to the seen set (and its query was issued this run), and any
later run that finds the key in the seen set skips the item entirely,
issuing no resolution query for it. -/
theorem unresolvable_marked_seen_and_not_requeried (env : Env) (cfg : Config) (s : St)
    (t a k : String) (h1 : k ∉ s.seen)
    (h2 : (spotify_search_track (env.searchPrimary t a) (env.searchFallback t a)).1 = none) :
    ((processItem env cfg s (t, a, k)).1).seen = k :: s.seen ∧
      ((processItem env cfg s (t, a, k)).1).queries = s.queries ++ [(t, a)] ∧
      ∀ (env2 : Env) (cfg2 : Config) (s2 : St), k ∈ s2.seen →
        processItem env2 cfg2 s2 (t, a, k) = (s2, true) := by
  have hstep : processItem env cfg s (t, a, k) =
      flushIfBig env { s with seen := k :: s.seen, queries := s.queries ++ [(t, a)] } := by
    unfold processItem
    dsimp only
    rw [if_neg h1, h2]
  refine ⟨?_, ?_, ?_⟩
  · rw [hstep, flushIfBig_seen]
  · rw [hstep, flushIfBig_queries]
  · intro env2 cfg2 s2 hmem
    exact processItem_skip env2 cfg2 s2 (t, a, k) hmem

theorem unresolvable_marked_seen_and_not_requeried_witness :
    ((processItem envNone defaultConfig stW ("ta", "aa", "aa - ta")).1).seen = ["aa - ta"] ∧
      ((processItem envNone defaultConfig stW ("ta", "aa", "aa - ta")).1).queries =
        [("ta", "aa")] ∧
      processItem envNone defaultConfig { stW with seen := ["aa - ta"] }
          ("ta", "aa", "aa - ta") = ({ stW with seen := ["aa - ta"] }, true) := by
  have h := unresolvable_marked_seen_and_not_requeried envNone defaultConfig stW
    "ta" "aa" "aa - ta" (by decide) (by decide)
  exact ⟨h.1, h.2.1, h.2.2 envNone defaultConfig _ (by decide)⟩

/-- C7: after a run all of whose append API calls succeeded, a second
run over the unchanged feed makes zero append API calls: its append log
is empty, its call counter stays 0, and it buffers no new track. -/
theorem second_run_no_appends (env env2 : Env) (cfg : Config) (seen0 : List String)
    (meta0 : Meta) (dest0 : DestState)
    (hok : ∀ n, env.appendOk n = true) (hfeed : env2.feed = env.feed) :
    (run env2 cfg (run env cfg seen0 meta0 dest0).seen (run env cfg seen0 meta0 dest0).metav
        (run env cfg seen0 meta0 dest0).dest).appendLog = [] ∧
      (run env2 cfg (run env cfg seen0 meta0 dest0).seen (run env cfg seen0 meta0 dest0).metav
        (run env cfg seen0 meta0 dest0).dest).k = 0 ∧
      (run env2 cfg (run env cfg seen0 meta0 dest0).seen (run env cfg seen0 meta0 dest0).metav
        (run env cfg seen0 meta0 dest0).dest).newCount = 0 := by
  have hall : ∀ it ∈ fetch_xm_tracks env2.feed,
      it.2.2 ∈ (run env cfg seen0 meta0 dest0).seen := by
    intro it hit
    rw [hfeed] at hit
    have h := runLoop_all env cfg (fetch_xm_tracks env.feed) hok
      (initState cfg seen0 meta0 dest0) it hit
    have e : (run env cfg seen0 meta0 dest0).seen =
        (runLoop env cfg (initState cfg seen0 meta0 dest0) (fetch_xm_tracks env.feed)).seen :=
      finishRun_seen env _
    rw [e]
    exact h
  have h2 := run_of_all_seen env2 cfg (run env cfg seen0 meta0 dest0).seen
    (run env cfg seen0 meta0 dest0).metav (run env cfg seen0 meta0 dest0).dest hall
  exact ⟨h2.1, h2.2.1, h2.2.2.1⟩

theorem second_run_no_appends_witness :
    (run envOrd defaultConfig
        (run envOrd defaultConfig [] ⟨some 1, some 0⟩ ⟨1, [⟨0, "v1", []⟩]⟩).seen
        (run envOrd defaultConfig [] ⟨some 1, some 0⟩ ⟨1, [⟨0, "v1", []⟩]⟩).metav
        (run envOrd defaultConfig [] ⟨some 1, some 0⟩ ⟨1, [⟨0, "v1", []⟩]⟩).dest).appendLog =
      [] ∧
      (run envOrd defaultConfig
        (run envOrd defaultConfig [] ⟨some 1, some 0⟩ ⟨1, [⟨0, "v1", []⟩]⟩).seen
        (run envOrd defaultConfig [] ⟨some 1, some 0⟩ ⟨1, [⟨0, "v1", []⟩]⟩).metav
        (run envOrd defaultConfig [] ⟨some 1, some 0⟩ ⟨1, [⟨0, "v1", []⟩]⟩).dest).k = 0 ∧
      (run envOrd defaultConfig
        (run envOrd defaultConfig [] ⟨some 1, some 0⟩ ⟨1, [⟨0, "v1", []⟩]⟩).seen
        (run envOrd defaultConfig [] ⟨some 1, some 0⟩ ⟨1, [⟨0, "v1", []⟩]⟩).metav
        (run envOrd defaultConfig [] ⟨some 1, some 0⟩ ⟨1, [⟨0, "v1", []⟩]⟩).dest).newCount =
      0 :=
  second_run_no_appends envOrd envOrd defaultConfig [] ⟨some 1, some 0⟩
    ⟨1, [⟨0, "v1", []⟩]⟩ (fun _ => rfl) rfl

/-- C8: when the stored container id exists in the meta record but the
remote metadata lookup reports it gone, the run increments the volume
number exactly once at run start, creates exactly one new (empty)
container, stores and saves the updated volume state, and — the feed
holding only already-seen items — appends nothing. -/
theorem missing_container_recovery (env : Env) (cfg : Config) (seen0 : List String)
    (meta0 : Meta) (dest0 : DestState) (p : Nat)
    (hpid : meta0.current_playlist_id = some p)
    (hmiss : findTracks dest0.playlists p = none)
    (hthr : 0 < cfg.threshold)
    (hseen : ∀ it ∈ fetch_xm_tracks env.feed, it.2.2 ∈ seen0) :
    (run env cfg seen0 meta0 dest0).vol = meta0.current_volume.getD 1 + 1 ∧
      (run env cfg seen0 meta0 dest0).pid = dest0.nextId ∧
      (run env cfg seen0 meta0 dest0).dest.playlists =
        dest0.playlists ++
          [⟨dest0.nextId,
            "SiriusXM 1st Wave Archive — Vol. " ++
              toString (meta0.current_volume.getD 1 + 1), []⟩] ∧
      (run env cfg seen0 meta0 dest0).metav =
        ⟨some (meta0.current_volume.getD 1 + 1), some dest0.nextId⟩ ∧
      SaveEvent.metaSave ⟨some (meta0.current_volume.getD 1 + 1), some dest0.nextId⟩ ∈
        (run env cfg seen0 meta0 dest0).saves ∧
      (run env cfg seen0 meta0 dest0).appendLog = [] ∧
      (run env cfg seen0 meta0 dest0).newCount = 0 := by
  have h1 : ensurePlaylist meta0 dest0 =
      ⟨0, meta0.current_volume.getD 1, p, meta0, dest0, []⟩ := by
    unfold ensurePlaylist
    rw [hpid]
  have h2 : checkExists ⟨0, meta0.current_volume.getD 1, p, meta0, dest0, []⟩ =
      ⟨0, meta0.current_volume.getD 1 + 1, dest0.nextId,
        ⟨some (meta0.current_volume.getD 1 + 1), some dest0.nextId⟩,
        ⟨dest0.nextId + 1, dest0.playlists ++
          [⟨dest0.nextId,
            "SiriusXM 1st Wave Archive — Vol. " ++
              toString (meta0.current_volume.getD 1 + 1), []⟩]⟩,
        [SaveEvent.metaSave
          ⟨some (meta0.current_volume.getD 1 + 1), some dest0.nextId⟩]⟩ := by
    unfold checkExists get_playlist_total_tracks
    dsimp only
    rw [hmiss]
    rfl
  have h3 : ∀ st : StartState, st.total = 0 → checkThreshold cfg st = st := by
    intro st h
    unfold checkThreshold
    rw [if_neg (by omega)]
  have hinit : initState cfg seen0 meta0 dest0 =
      ⟨seen0, 0, meta0.current_volume.getD 1 + 1, dest0.nextId,
        ⟨some (meta0.current_volume.getD 1 + 1), some dest0.nextId⟩, [],
        ⟨dest0.nextId + 1, dest0.playlists ++
          [⟨dest0.nextId,
            "SiriusXM 1st Wave Archive — Vol. " ++
              toString (meta0.current_volume.getD 1 + 1), []⟩]⟩,
        0, 0,
        [SaveEvent.metaSave ⟨some (meta0.current_volume.getD 1 + 1), some dest0.nextId⟩],
        [], []⟩ := by
    unfold initState
    rw [h1, h2, h3 _ rfl]
  have hskip : runLoop env cfg (initState cfg seen0 meta0 dest0) (fetch_xm_tracks env.feed) =
      initState cfg seen0 meta0 dest0 :=
    runLoop_skip env cfg (fetch_xm_tracks env.feed) _ hseen
  unfold run
  rw [hskip, hinit]
  refine ⟨?_, ?_, ?_, ?_, ?_, ?_, ?_⟩
  · rw [finishRun_vol]
  · rw [finishRun_pid]
  · rw [(finishRun_of_empty env _ rfl).2.2.2]
  · rw [finishRun_metav]
  · rw [finishRun_saves_eq]
    exact List.mem_append_left _ (List.mem_cons_self _ _)
  · rw [(finishRun_of_empty env _ rfl).1]
  · rw [(finishRun_of_empty env _ rfl).2.2.1]

theorem missing_container_recovery_witness :
    (run envNone defaultConfig ["x"] ⟨some 3, some 5⟩ ⟨7, []⟩).vol = 4 ∧
      (run envNone defaultConfig ["x"] ⟨some 3, some 5⟩ ⟨7, []⟩).pid = 7 ∧
      (run envNone defaultConfig ["x"] ⟨some 3, some 5⟩ ⟨7, []⟩).dest.playlists =
        [] ++ [⟨7, "SiriusXM 1st Wave Archive — Vol. " ++ toString 4, []⟩] ∧
      (run envNone defaultConfig ["x"] ⟨some 3, some 5⟩ ⟨7, []⟩).metav = ⟨some 4, some 7⟩ ∧
      SaveEvent.metaSave ⟨some 4, some 7⟩ ∈
        (run envNone defaultConfig ["x"] ⟨some 3, some 5⟩ ⟨7, []⟩).saves ∧
      (run envNone defaultConfig ["x"] ⟨some 3, some 5⟩ ⟨7, []⟩).appendLog = [] ∧
      (run envNone defaultConfig ["x"] ⟨some 3, some 5⟩ ⟨7, []⟩).newCount = 0 :=
  missing_container_recovery envNone defaultConfig ["x"] ⟨some 3, some 5⟩ ⟨7, []⟩ 5
    rfl rfl (by decide) (fun it hit => absurd hit (List.not_mem_nil it))

/-- C9: the seen set only grows and the volume number only increases —
each loop iteration preserves both (no key is ever removed, the volume
is never decremented), and over a whole run the final seen set contains
the loaded one and the final volume number is at least the loaded one. -/
theorem seen_and_volume_monotone (env : Env) (cfg : Config) (s : St)
    (item : String × String × String) (seen0 : List String) (meta0 : Meta)
    (dest0 : DestState) :
    (s.seen ⊆ ((processItem env cfg s item).1).seen ∧
        s.vol ≤ ((processItem env cfg s item).1).vol) ∧
      seen0 ⊆ (run env cfg seen0 meta0 dest0).seen ∧
      meta0.current_volume.getD 1 ≤ (run env cfg seen0 meta0 dest0).vol := by
  refine ⟨processItem_mono env cfg s item, ?_, ?_⟩
  · have h1 := (runLoop_mono env cfg (fetch_xm_tracks env.feed)
      (initState cfg seen0 meta0 dest0)).1
    have e : (run env cfg seen0 meta0 dest0).seen =
        (runLoop env cfg (initState cfg seen0 meta0 dest0) (fetch_xm_tracks env.feed)).seen :=
      finishRun_seen env _
    rw [e]
    exact h1
  · have h2 := (runLoop_mono env cfg (fetch_xm_tracks env.feed)
      (initState cfg seen0 meta0 dest0)).2
    have e2 : (run env cfg seen0 meta0 dest0).vol =
        (runLoop env cfg (initState cfg seen0 meta0 dest0) (fetch_xm_tracks env.feed)).vol :=
      finishRun_vol env _
    rw [e2]
    exact Nat.le_trans (initState_vol_ge cfg seen0 meta0 dest0) h2

/-- C3 counterexample: with `CAPACITY_THRESHOLD = 3` (hard limit 10000)
and an active container holding 2 items, appending one more resolvable
item makes the running count cross the threshold, yet the controller
neither flushes-then-rotates nor creates a container: the item lands in
the original container, pushing it to the threshold. -/
theorem threshold_cross_without_rotating :
    (run envOne ⟨3, 10000⟩ [] ⟨some 1, some 0⟩ ⟨1, [⟨0, "v1", ["p", "q"]⟩]⟩).vol = 1 ∧
      (run envOne ⟨3, 10000⟩ [] ⟨some 1, some 0⟩
          ⟨1, [⟨0, "v1", ["p", "q"]⟩]⟩).dest.nextId = 1 ∧
      findTracks (run envOne ⟨3, 10000⟩ [] ⟨some 1, some 0⟩
          ⟨1, [⟨0, "v1", ["p", "q"]⟩]⟩).dest.playlists 0 = some ["p", "q", "t1xu"] := by
  decide

end XmSpot
